import Mathlib

/-!
Verification of the whenchange watch-and-debounce engine.

The engine is embedded shallowly.  Two revisions of the program are
modelled, because the repository carries both:

* the revision with the pattern/glob watcher (the file holding
  `Watcher.Watch` with directory-of-file registration, `WatchPatterns`
  and the `HandleEvent` that checks whether a path is tracked) — this is
  the primary embedding, in the root namespace;
* the revision in `whenchange.go` (single-path `Watch`, `IsDelete`
  handling via `RemoveWatch`, and a `HandleEvent` that reads the
  bookkeeping map without a presence check) — embedded in namespace `WG`.

Times are integers (nanoseconds).  The Go zero value of `time.Time`
corresponds to `0`.  Filesystem facts (`os.Stat`/`IsDir`, `path.Dir`,
`filepath.Glob`, `filepath.Walk`/`SubDirs`, `filepath.Clean`), the
fsnotify subscription outcome, and the command-run outcome are supplied
by an environment record, since they are external to the engine.

Side effects are recorded in a trace of actions: log lines (verbose or
not), the debounce-timestamp update `watcher.list[path] = now`, and the
command execution `exec.Command(shell, "-c", c)`.  `log.Fatal` is
modelled by the `fatal` flag of a step result: once set, no further
statements of the Go program run.
-/

/-- One observable side effect of the engine, in program order. -/
inductive Act where
  | verboseLog : Act
  | infoLog : Act
  | setLast : String → Int → Act
  | run : String → String → Act
  deriving DecidableEq, Repr

/-- The mutable state of the engine: the bookkeeping map
`watcher.list : map[string]time.Time` (as an association list) and the
multiset of live fsnotify subscriptions, one entry per successful
`fsnotify.Watcher.Watch` call. -/
structure WatchState where
  list : List (String × Int)
  subs : List String
  deriving DecidableEq, Repr

/-- Result of running a fragment of the program: the state when the
fragment finished (or when `log.Fatal` stopped the process), the trace
of actions it performed, and whether `log.Fatal` fired. -/
structure StepOut where
  state : WatchState
  trace : List Act
  fatal : Bool
  deriving DecidableEq, Repr

/-- A raw fsnotify event: the reported name and its operation bits. -/
structure FileEvent where
  name : String
  isCreate : Bool
  isDelete : Bool
  deriving DecidableEq, Repr

/-- The program configuration plus the external world: flag values that
are fixed after startup, and the filesystem / fsnotify / command-runner
collaborators. -/
structure Env where
  isDir : String → Bool
  parent : String → String
  clean : String → String
  subscribeOk : String → Bool
  glob : String → Option (List String)
  subDirs : String → List String
  recursive : Bool
  delay : Int
  cmd : List String
  shell : String
  patternList : List String
  runOk : Bool

/-- Lookup in the bookkeeping map (`_, ok := w.list[path]`). -/
def lookupT : List (String × Int) → String → Option Int
  | [], _ => none
  | (k, v) :: rest, p => if k = p then some v else lookupT rest p

/-- Map write `w.list[path] = t`: update in place or append. -/
def insertT : List (String × Int) → String → Int → List (String × Int)
  | [], p, t => [(p, t)]
  | (k, v) :: rest, p, t =>
    if k = p then (k, t) :: rest else (k, v) :: insertT rest p t

/-- Number of entries of the map carrying the given key. -/
def countKeys : List (String × Int) → String → Nat
  | [], _ => 0
  | (k, _) :: rest, p => (if k = p then 1 else 0) + countKeys rest p

/-- Number of occurrences of a path in the subscription list. -/
def countOccs : List String → String → Nat
  | [], _ => 0
  | q :: rest, p => (if q = p then 1 else 0) + countOccs rest p

/-- The hardcoded rewind in `time.Now().Add(-5 * time.Second)`. -/
def fiveSecondsNs : Int := 5000000000

/-- Whether an action is the execution of the user command. -/
def isRun : Act → Bool
  | .run _ _ => true
  | _ => false

/-- Whether a step ran the user command at least once. -/
def fires (o : StepOut) : Bool := o.trace.any isRun

/-- The command-runner tail of `HandleEvent`: log start, run
`shell -c <joined cmd>` (logging the error if the run fails), log done;
or log that there is no command to run. -/
def runTrace (env : Env) : List Act :=
  if 0 < env.cmd.length then
    Act.infoLog :: Act.run env.shell (String.intercalate " " env.cmd) ::
      ((if env.runOk then [] else [Act.infoLog]) ++ [Act.infoLog])
  else
    [Act.infoLog]

/-- The registration loop inside `Watcher.Watch`: for each path of
`towatch`, return early if already present, otherwise subscribe
(`log.Fatal` on error) and seed the timestamp five seconds in the
past. -/
def watchLoop (env : Env) (now : Int) : List String → WatchState → StepOut
  | [], s => ⟨s, [], false⟩
  | f :: rest, s =>
    if (lookupT s.list f).isSome then
      ⟨s, [Act.verboseLog], false⟩
    else if env.subscribeOk f then
      let o := watchLoop env now rest
        ⟨insertT s.list f (now - fiveSecondsNs), s.subs ++ [f]⟩
      ⟨o.state, Act.verboseLog :: o.trace, o.fatal⟩
    else
      ⟨s, [Act.verboseLog, Act.infoLog], true⟩

/-- `Watcher.Watch` of the pattern-watcher revision: watch the path,
and when it is a regular file also its containing directory. -/
def Watch (env : Env) (s : WatchState) (file : String) (now : Int) : StepOut :=
  watchLoop env now
    (if env.isDir file then [file] else [file, env.parent file]) s

/-- Sequence plain `Watch` calls over a list of paths, stopping when the
process has died. -/
def watchList (env : Env) (now : Int) : List String → WatchState → StepOut
  | [], s => ⟨s, [], false⟩
  | f :: rest, s =>
    let o := Watch env s f now
    if o.fatal then o
    else
      let o2 := watchList env now rest o.state
      ⟨o2.state, o.trace ++ o2.trace, o2.fatal⟩

/-- The inner loop of `WatchPatterns`: watch each glob match, and when
the recursive flag is set also every directory below it. -/
def watchFiles (env : Env) (now : Int) : List String → WatchState → StepOut
  | [], s => ⟨s, [], false⟩
  | f :: rest, s =>
    let o1 := Watch env s f now
    if o1.fatal then o1
    else
      let o2 :=
        if env.recursive then watchList env now (env.subDirs f) o1.state
        else ⟨o1.state, [], false⟩
      if o2.fatal then ⟨o2.state, o1.trace ++ o2.trace, true⟩
      else
        let o3 := watchFiles env now rest o2.state
        ⟨o3.state, o1.trace ++ o2.trace ++ o3.trace, o3.fatal⟩

/-- `Watcher.WatchPatterns`: glob each pattern; a pattern whose glob
errors contributes nothing at all; the matches are watched. -/
def WatchPatterns (env : Env) (now : Int) :
    List String → WatchState → StepOut
  | [], s => ⟨s, [], false⟩
  | p :: rest, s =>
    match env.glob p with
    | none => WatchPatterns env now rest s
    | some files =>
      let o := watchFiles env now files s
      if o.fatal then o
      else
        let o2 := WatchPatterns env now rest o.state
        ⟨o2.state, o.trace ++ o2.trace, o2.fatal⟩

/-- `HandleEvent` of the pattern-watcher revision: creates re-resolve
the patterns; other events are dropped when the path is untracked,
debounced against the stored timestamp, and otherwise refresh the
timestamp and run the command. -/
def HandleEvent (env : Env) (s : WatchState) (ev : FileEvent) (now : Int) :
    StepOut :=
  let path := env.clean ev.name
  if ev.isCreate then
    WatchPatterns env now env.patternList s
  else
    match lookupT s.list path with
    | none => ⟨s, [], false⟩
    | some wtime =>
      if now - wtime < env.delay then
        ⟨s, [Act.verboseLog], false⟩
      else
        ⟨⟨insertT s.list path now, s.subs⟩,
          Act.verboseLog :: Act.setLast path now :: runTrace env,
          false⟩

/-- `HandleError`: a source error is only logged; the loop goes on. -/
def HandleError (s : WatchState) : StepOut :=
  ⟨s, [Act.infoLog], false⟩

namespace WG

/-- `Watcher.Watch` of the whenchange.go revision: single path, early
return when already present, `log.Fatal` on subscription failure,
timestamp seeded five seconds in the past. -/
def Watch (env : Env) (s : WatchState) (path : String) (now : Int) : StepOut :=
  if (lookupT s.list path).isSome then
    ⟨s, [Act.verboseLog], false⟩
  else if env.subscribeOk path then
    ⟨⟨insertT s.list path (now - fiveSecondsNs), s.subs ++ [path]⟩,
      [Act.verboseLog], false⟩
  else
    ⟨s, [Act.verboseLog, Act.infoLog], true⟩

/-- `HandleEvent` of the whenchange.go revision: log the change; on a
create of a directory, watch it; on a delete, `RemoveWatch` the
subscription (the map entry stays); then read the timestamp through the
map zero value and debounce; on acceptance refresh the timestamp and
run the command. -/
def HandleEvent (env : Env) (s : WatchState) (ev : FileEvent) (now : Int) :
    StepOut :=
  let path := env.clean ev.name
  let o1 : StepOut :=
    if ev.isCreate && env.isDir path then
      let w := Watch env s path now
      ⟨w.state, Act.verboseLog :: Act.verboseLog :: w.trace, w.fatal⟩
    else ⟨s, [Act.verboseLog], false⟩
  if o1.fatal then o1
  else
    let s2 : WatchState :=
      if ev.isDelete then
        ⟨o1.state.list, o1.state.subs.filter (fun q => q != path)⟩
      else o1.state
    let tr2 : List Act := if ev.isDelete then [Act.verboseLog] else []
    let wtime := (lookupT s2.list path).getD 0
    if now - wtime < env.delay then
      ⟨s2, o1.trace ++ tr2 ++ [Act.verboseLog], false⟩
    else
      ⟨⟨insertT s2.list path now, s2.subs⟩,
        o1.trace ++ tr2 ++ (Act.setLast path now :: runTrace env),
        false⟩

end WG

theorem lookupT_insertT_self (l : List (String × Int)) (p : String) (t : Int) :
    lookupT (insertT l p t) p = some t := by
  induction l with
  | nil => simp [insertT, lookupT]
  | cons kv rest ih =>
    obtain ⟨k, v⟩ := kv
    by_cases h : k = p <;> simp [insertT, lookupT, h, ih]

theorem lookupT_insertT_ne (l : List (String × Int)) (p q : String) (t : Int)
    (h : q ≠ p) : lookupT (insertT l p t) q = lookupT l q := by
  induction l with
  | nil => simp [insertT, lookupT, Ne.symm h]
  | cons kv rest ih =>
    obtain ⟨k, v⟩ := kv
    by_cases hk : k = p
    · subst hk
      simp [insertT, lookupT, Ne.symm h]
    · simp [insertT, lookupT, hk, ih]

theorem countKeys_insertT_fresh (l : List (String × Int)) (p : String) (t : Int)
    (h : countKeys l p = 0) : countKeys (insertT l p t) p = 1 := by
  induction l with
  | nil => simp [insertT, countKeys]
  | cons kv rest ih =>
    obtain ⟨k, v⟩ := kv
    by_cases hk : k = p
    · simp [countKeys, hk] at h
    · simp [countKeys, hk] at h
      simp [insertT, countKeys, hk, ih h]

theorem countKeys_insertT_ne (l : List (String × Int)) (p q : String) (t : Int)
    (h : q ≠ p) : countKeys (insertT l q t) p = countKeys l p := by
  induction l with
  | nil => simp [insertT, countKeys, h]
  | cons kv rest ih =>
    obtain ⟨k, v⟩ := kv
    by_cases hk : k = q <;> simp [insertT, countKeys, hk, ih]

theorem lookupT_eq_none_of_countKeys_zero (l : List (String × Int)) (p : String)
    (h : countKeys l p = 0) : lookupT l p = none := by
  induction l with
  | nil => simp [lookupT]
  | cons kv rest ih =>
    obtain ⟨k, v⟩ := kv
    by_cases hk : k = p
    · simp [countKeys, hk] at h
    · simp [countKeys, hk] at h
      simp [lookupT, hk, ih h]

theorem countOccs_append_one (l : List String) (q p : String) :
    countOccs (l ++ [q]) p = countOccs l p + (if q = p then 1 else 0) := by
  induction l with
  | nil => simp [countOccs]
  | cons x rest ih => simp [countOccs, ih]; omega

theorem not_mem_filter_ne (l : List String) (p : String) :
    p ∉ l.filter (fun q => q != p) := by
  intro hmem
  have := List.of_mem_filter hmem
  simp at this

/-- An environment with identity path functions, a five-second window,
a non-empty command, and an always-succeeding event source, used to
instantiate concrete scenarios. -/
def wEnv : Env :=
  ⟨fun _ => true, fun q => q, fun q => q, fun _ => true,
    fun _ => some [], fun _ => [], true, 5000000000,
    ["go", "build"], "bash", [], true⟩

/-- C5: a tracked event arriving strictly inside the debounce window is
suppressed, the command is not run, and the registry including the
stored timestamp for the path is left exactly as it was. -/
theorem C5_suppressed_leaves_registry_unchanged
    (env : Env) (s : WatchState) (ev : FileEvent) (now w : Int) (p : String)
    (hc : ev.isCreate = false) (hp : env.clean ev.name = p)
    (hl : lookupT s.list p = some w) (hlt : now - w < env.delay) :
    (HandleEvent env s ev now).state = s ∧
    fires (HandleEvent env s ev now) = false ∧
    lookupT (HandleEvent env s ev now).state.list p = some w := by
  simp [HandleEvent, hc, hp, hl, hlt, fires, isRun]

/-- Closed instance of the suppression frame property. -/
theorem C5_suppressed_leaves_registry_unchanged_witness :
    (HandleEvent wEnv ⟨[("a.txt", 0)], ["a.txt"]⟩ ⟨"a.txt", false, false⟩
        1).state = ⟨[("a.txt", 0)], ["a.txt"]⟩ ∧
    fires (HandleEvent wEnv ⟨[("a.txt", 0)], ["a.txt"]⟩ ⟨"a.txt", false, false⟩
        1) = false ∧
    lookupT (HandleEvent wEnv ⟨[("a.txt", 0)], ["a.txt"]⟩
        ⟨"a.txt", false, false⟩ 1).state.list "a.txt" = some 0 :=
  C5_suppressed_leaves_registry_unchanged wEnv ⟨[("a.txt", 0)], ["a.txt"]⟩
    ⟨"a.txt", false, false⟩ 1 0 "a.txt" rfl rfl (by decide) (by decide)

/-- C3 (amended part): in the pattern-watcher revision, a non-create
event for a path absent from the registry does nothing at all: no
command, no log, no state change. -/
theorem C3_untracked_event_ignored
    (env : Env) (s : WatchState) (ev : FileEvent) (now : Int) (p : String)
    (hc : ev.isCreate = false) (hp : env.clean ev.name = p)
    (hl : lookupT s.list p = none) :
    HandleEvent env s ev now = ⟨s, [], false⟩ := by
  simp [HandleEvent, hc, hp, hl]

/-- Closed instance of the untracked-event no-op property. -/
theorem C3_untracked_event_ignored_witness :
    HandleEvent wEnv ⟨[], []⟩ ⟨"b.txt", false, false⟩ 7 = ⟨⟨[], []⟩, [], false⟩ :=
  C3_untracked_event_ignored wEnv ⟨[], []⟩ ⟨"b.txt", false, false⟩ 7 "b.txt"
    rfl rfl (by decide)

/-- C3 (counterexample): in the whenchange.go revision a non-create
event for a path that is NOT in the registry still runs the command and
inserts a fresh registry entry, because the missing map entry reads as
the zero time. -/
theorem C3_counterexample :
    fires (WG.HandleEvent wEnv ⟨[], []⟩ ⟨"b.txt", false, false⟩
      6000000000) = true ∧
    lookupT (WG.HandleEvent wEnv ⟨[], []⟩ ⟨"b.txt", false, false⟩
      6000000000).state.list "b.txt" = some 6000000000 := by
  decide

/-- C4: on an accepted event the trace updates the stored timestamp to
the acceptance time strictly before the command runs, and the post-state
already carries the acceptance time. -/
theorem C4_timestamp_update_precedes_run
    (env : Env) (s : WatchState) (ev : FileEvent) (now w : Int) (p : String)
    (hc : ev.isCreate = false) (hp : env.clean ev.name = p)
    (hl : lookupT s.list p = some w) (hd : env.delay ≤ now - w)
    (hcmd : 0 < env.cmd.length) :
    ∃ i j, i < j ∧
      (HandleEvent env s ev now).trace.get? i = some (Act.setLast p now) ∧
      (HandleEvent env s ev now).trace.get? j =
        some (Act.run env.shell (String.intercalate " " env.cmd)) ∧
      lookupT (HandleEvent env s ev now).state.list p = some now := by
  refine ⟨1, 3, by omega, ?_, ?_, ?_⟩ <;>
    simp [HandleEvent, hc, hp, hl, not_lt.mpr hd, runTrace, hcmd,
      lookupT_insertT_self]

/-- Closed instance of the update-before-run property. -/
theorem C4_timestamp_update_precedes_run_witness :
    ∃ i j, i < j ∧
      (HandleEvent wEnv ⟨[("a.txt", 0)], ["a.txt"]⟩ ⟨"a.txt", false, false⟩
        6000000000).trace.get? i = some (Act.setLast "a.txt" 6000000000) ∧
      (HandleEvent wEnv ⟨[("a.txt", 0)], ["a.txt"]⟩ ⟨"a.txt", false, false⟩
        6000000000).trace.get? j =
        some (Act.run wEnv.shell (String.intercalate " " wEnv.cmd)) ∧
      lookupT (HandleEvent wEnv ⟨[("a.txt", 0)], ["a.txt"]⟩
        ⟨"a.txt", false, false⟩ 6000000000).state.list "a.txt" =
        some 6000000000 :=
  C4_timestamp_update_precedes_run wEnv ⟨[("a.txt", 0)], ["a.txt"]⟩
    ⟨"a.txt", false, false⟩ 6000000000 0 "a.txt" rfl rfl (by decide)
    (by decide) (by decide)

/-- C1: after a trigger accepted at time t1, the next attempt for the
same path at time t2 is suppressed (no command, state unchanged) when
t2 - t1 is strictly below the debounce window, and accepted (command
runs) when t2 - t1 reaches the window. -/
theorem C1_debounce_window
    (env : Env) (s : WatchState) (ev1 ev2 : FileEvent) (t0 t1 t2 : Int)
    (p : String)
    (h1c : ev1.isCreate = false) (h1p : env.clean ev1.name = p)
    (h0 : lookupT s.list p = some t0) (hacc : env.delay ≤ t1 - t0)
    (h2c : ev2.isCreate = false) (h2p : env.clean ev2.name = p)
    (hcmd : 0 < env.cmd.length) :
    (t2 - t1 < env.delay →
      fires (HandleEvent env (HandleEvent env s ev1 t1).state ev2 t2) =
        false ∧
      (HandleEvent env (HandleEvent env s ev1 t1).state ev2 t2).state =
        (HandleEvent env s ev1 t1).state) ∧
    (env.delay ≤ t2 - t1 →
      fires (HandleEvent env (HandleEvent env s ev1 t1).state ev2 t2) =
        true) := by
  have hs1 : (HandleEvent env s ev1 t1).state = ⟨insertT s.list p t1, s.subs⟩ := by
    simp [HandleEvent, h1c, h1p, h0, not_lt.mpr hacc]
  rw [hs1]
  constructor
  · intro hlt
    simp [HandleEvent, h2c, h2p, lookupT_insertT_self, hlt, fires, isRun]
  · intro hge
    simp [HandleEvent, h2c, h2p, lookupT_insertT_self, not_lt.mpr hge,
      fires, isRun, runTrace, hcmd]

/-- Closed instance of the debounce-window property. -/
theorem C1_debounce_window_witness :
    ((5999999999 : Int) - 5000000000 < wEnv.delay →
      fires (HandleEvent wEnv
        (HandleEvent wEnv ⟨[("a.txt", 0)], ["a.txt"]⟩ ⟨"a.txt", false, false⟩
          5000000000).state ⟨"a.txt", false, false⟩ 5999999999) = false ∧
      (HandleEvent wEnv
        (HandleEvent wEnv ⟨[("a.txt", 0)], ["a.txt"]⟩ ⟨"a.txt", false, false⟩
          5000000000).state ⟨"a.txt", false, false⟩ 5999999999).state =
        (HandleEvent wEnv ⟨[("a.txt", 0)], ["a.txt"]⟩ ⟨"a.txt", false, false⟩
          5000000000).state) ∧
    (wEnv.delay ≤ (5999999999 : Int) - 5000000000 →
      fires (HandleEvent wEnv
        (HandleEvent wEnv ⟨[("a.txt", 0)], ["a.txt"]⟩ ⟨"a.txt", false, false⟩
          5000000000).state ⟨"a.txt", false, false⟩ 5999999999) = true) :=
  C1_debounce_window wEnv ⟨[("a.txt", 0)], ["a.txt"]⟩ ⟨"a.txt", false, false⟩
    ⟨"a.txt", false, false⟩ 0 5000000000 5999999999 "a.txt" rfl rfl
    (by decide) (by decide) rfl rfl (by decide)

/-- C10: a pattern whose glob expansion errors contributes nothing to
WatchPatterns: dropping it from the pattern list leaves the resulting
state, trace and exit status literally identical, so nothing is watched
from it and nothing is logged about it. -/
theorem C10_glob_error_silently_skipped
    (env : Env) (now : Int) (pat : String) (hg : env.glob pat = none)
    (pre post : List String) (s : WatchState) :
    WatchPatterns env now (pre ++ pat :: post) s =
      WatchPatterns env now (pre ++ post) s := by
  induction pre generalizing s with
  | nil => simp [WatchPatterns, hg]
  | cons q rest ih =>
    simp only [List.cons_append, WatchPatterns]
    cases hq : env.glob q with
    | none => exact ih s
    | some files => simp [ih]

/-- An environment whose glob errors on the malformed pattern. -/
def cEnv10 : Env :=
  ⟨fun _ => true, fun q => q, fun q => q, fun _ => true,
    fun q => if q = "[" then none else some [], fun _ => [], true,
    5000000000, [], "bash", [], true⟩

/-- Closed instance of the glob-error skip property. -/
theorem C10_glob_error_silently_skipped_witness :
    WatchPatterns cEnv10 0 (["ok"] ++ "[" :: ["later"]) ⟨[], []⟩ =
      WatchPatterns cEnv10 0 (["ok"] ++ ["later"]) ⟨[], []⟩ :=
  C10_glob_error_silently_skipped cEnv10 0 "[" (by decide) ["ok"] ["later"]
    ⟨[], []⟩

/-- An environment with a ten-second debounce window, larger than the
hardcoded five-second registration rewind. -/
def cEnv2 : Env :=
  ⟨fun _ => true, fun q => q, fun q => q, fun _ => true,
    fun _ => some [], fun _ => [], true, 10000000000,
    ["go", "build"], "bash", [], true⟩

/-- C2 evaluated at the failing input: with a ten-second window,
registering a path at time 0 seeds its timestamp at the hardcoded
minus five seconds — not now minus the window — and the very first
event for the path, one nanosecond after registration, is suppressed
and leaves the state untouched. -/
theorem C2_first_event_suppressed_at_large_window :
    lookupT (Watch cEnv2 ⟨[], []⟩ "a.txt" 0).state.list "a.txt" =
      some (-5000000000) ∧
    fires (HandleEvent cEnv2 (Watch cEnv2 ⟨[], []⟩ "a.txt" 0).state
      ⟨"a.txt", false, false⟩ 1) = false ∧
    (HandleEvent cEnv2 (Watch cEnv2 ⟨[], []⟩ "a.txt" 0).state
      ⟨"a.txt", false, false⟩ 1).state =
      (Watch cEnv2 ⟨[], []⟩ "a.txt" 0).state := by
  decide

/-- C6: registering an unwatched path creates exactly one registry
entry and one subscription for it, and a second registration of the
same path is a verbose-logged no-op: it returns before subscribing,
leaving state (including the stored timestamp) untouched. -/
theorem C6_idempotent_registration
    (env : Env) (s : WatchState) (p : String) (t1 t2 : Int)
    (hk : countKeys s.list p = 0) (ho : countOccs s.subs p = 0)
    (hsub : ∀ q, env.subscribeOk q = true) :
    Watch env (Watch env s p t1).state p t2 =
      ⟨(Watch env s p t1).state, [Act.verboseLog], false⟩ ∧
    countKeys (Watch env s p t1).state.list p = 1 ∧
    countOccs (Watch env s p t1).state.subs p = 1 := by
  have hl0 : lookupT s.list p = none :=
    lookupT_eq_none_of_countKeys_zero s.list p hk
  have key : lookupT (Watch env s p t1).state.list p =
        some (t1 - fiveSecondsNs) ∧
      countKeys (Watch env s p t1).state.list p = 1 ∧
      countOccs (Watch env s p t1).state.subs p = 1 := by
    by_cases hd : env.isDir p
    · have hstate : (Watch env s p t1).state =
          ⟨insertT s.list p (t1 - fiveSecondsNs), s.subs ++ [p]⟩ := by
        simp [Watch, hd, watchLoop, hl0, hsub]
      rw [hstate]
      refine ⟨lookupT_insertT_self .., countKeys_insertT_fresh _ _ _ hk, ?_⟩
      rw [countOccs_append_one]
      simp [ho]
    · by_cases hpar :
        (lookupT (insertT s.list p (t1 - fiveSecondsNs))
          (env.parent p)).isSome
      · have hstate : (Watch env s p t1).state =
            ⟨insertT s.list p (t1 - fiveSecondsNs), s.subs ++ [p]⟩ := by
          simp [Watch, hd, watchLoop, hl0, hsub, hpar]
        rw [hstate]
        refine ⟨lookupT_insertT_self .., countKeys_insertT_fresh _ _ _ hk, ?_⟩
        rw [countOccs_append_one]
        simp [ho]
      · have hne : env.parent p ≠ p := by
          intro h
          rw [h, lookupT_insertT_self] at hpar
          simp at hpar
        have hstate : (Watch env s p t1).state =
            ⟨insertT (insertT s.list p (t1 - fiveSecondsNs)) (env.parent p)
                (t1 - fiveSecondsNs),
              (s.subs ++ [p]) ++ [env.parent p]⟩ := by
          simp [Watch, hd, watchLoop, hl0, hsub, hpar]
        rw [hstate]
        refine ⟨?_, ?_, ?_⟩
        · rw [lookupT_insertT_ne _ _ _ _ (Ne.symm hne)]
          exact lookupT_insertT_self ..
        · rw [countKeys_insertT_ne _ _ _ _ hne]
          exact countKeys_insertT_fresh _ _ _ hk
        · rw [countOccs_append_one, countOccs_append_one]
          simp [ho, hne]
  have hsome : (lookupT (Watch env s p t1).state.list p).isSome = true := by
    rw [key.1]
    rfl
  refine ⟨?_, key.2.1, key.2.2⟩
  generalize hst : (Watch env s p t1).state = st at hsome ⊢
  by_cases hd : env.isDir p <;> simp [Watch, hd, watchLoop, hsome]

/-- Closed instance of the idempotent-registration property. -/
theorem C6_idempotent_registration_witness :
    Watch wEnv (Watch wEnv ⟨[], []⟩ "a.txt" 0).state "a.txt" 7 =
      ⟨(Watch wEnv ⟨[], []⟩ "a.txt" 0).state, [Act.verboseLog], false⟩ ∧
    countKeys (Watch wEnv ⟨[], []⟩ "a.txt" 0).state.list "a.txt" = 1 ∧
    countOccs (Watch wEnv ⟨[], []⟩ "a.txt" 0).state.subs "a.txt" = 1 :=
  C6_idempotent_registration wEnv ⟨[], []⟩ "a.txt" 0 7 (by decide) (by decide)
    (fun _ => rfl)

/-- C7: registering a regular file also registers its containing
directory: neither call dies, and afterwards both paths are in the
registry with the seeded timestamp and both carry a subscription. -/
theorem C7_file_registers_parent_directory
    (env : Env) (s : WatchState) (file : String) (t : Int)
    (hd : env.isDir file = false)
    (hf : lookupT s.list file = none)
    (hpar : lookupT s.list (env.parent file) = none)
    (hne : env.parent file ≠ file)
    (hs1 : env.subscribeOk file = true)
    (hs2 : env.subscribeOk (env.parent file) = true) :
    (Watch env s file t).fatal = false ∧
    lookupT (Watch env s file t).state.list file = some (t - fiveSecondsNs) ∧
    lookupT (Watch env s file t).state.list (env.parent file) =
      some (t - fiveSecondsNs) ∧
    file ∈ (Watch env s file t).state.subs ∧
    env.parent file ∈ (Watch env s file t).state.subs := by
  have hparl1 : lookupT (insertT s.list file (t - fiveSecondsNs))
      (env.parent file) = lookupT s.list (env.parent file) :=
    lookupT_insertT_ne _ _ _ _ hne
  have hstate : Watch env s file t =
      ⟨⟨insertT (insertT s.list file (t - fiveSecondsNs)) (env.parent file)
            (t - fiveSecondsNs),
          (s.subs ++ [file]) ++ [env.parent file]⟩,
        [Act.verboseLog, Act.verboseLog], false⟩ := by
    simp [Watch, hd, watchLoop, hf, hs1, hs2, hparl1, hpar]
  rw [hstate]
  refine ⟨rfl, ?_, lookupT_insertT_self .., by simp, by simp⟩
  rw [lookupT_insertT_ne _ _ _ _ (Ne.symm hne)]
  exact lookupT_insertT_self ..

/-- An environment where the watched file is a regular file living in
the directory src. -/
def cEnv7 : Env :=
  ⟨fun q => q = "src", fun _ => "src", fun q => q, fun _ => true,
    fun _ => some [], fun _ => [], true, 5000000000, ["make"], "bash",
    [], true⟩

/-- Closed instance of the file-implies-directory registration. -/
theorem C7_file_registers_parent_directory_witness :
    (Watch cEnv7 ⟨[], []⟩ "a.go" 0).fatal = false ∧
    lookupT (Watch cEnv7 ⟨[], []⟩ "a.go" 0).state.list "a.go" =
      some (0 - fiveSecondsNs) ∧
    lookupT (Watch cEnv7 ⟨[], []⟩ "a.go" 0).state.list (cEnv7.parent "a.go") =
      some (0 - fiveSecondsNs) ∧
    "a.go" ∈ (Watch cEnv7 ⟨[], []⟩ "a.go" 0).state.subs ∧
    cEnv7.parent "a.go" ∈ (Watch cEnv7 ⟨[], []⟩ "a.go" 0).state.subs :=
  C7_file_registers_parent_directory cEnv7 ⟨[], []⟩ "a.go" 0 (by decide)
    (by decide) (by decide) (by decide) (by decide) (by decide)

/-- C8 (amended part): a watch-subscription failure is fatal whenever
Watch runs — in particular during runtime re-registration triggered by
a create event inside the dispatch loop — while a command-run failure
and an event-source error are only logged and never fatal. -/
theorem C8_amended_subscription_failure_always_fatal
    (env1 : Env) (s1 : WatchState) (ev1 : FileEvent) (now1 : Int)
    (pat q : String)
    (hc : ev1.isCreate = true) (hpl : env1.patternList = [pat])
    (hg : env1.glob pat = some [q]) (hdq : env1.isDir q = true)
    (hlq : lookupT s1.list q = none) (hsq : env1.subscribeOk q = false)
    (env2 : Env) (s2 : WatchState) (ev2 : FileEvent) (now2 w : Int)
    (p : String)
    (h2c : ev2.isCreate = false) (h2p : env2.clean ev2.name = p)
    (h2l : lookupT s2.list p = some w) (h2d : env2.delay ≤ now2 - w)
    (h2run : env2.runOk = false) :
    (HandleEvent env1 s1 ev1 now1).fatal = true ∧
    (HandleEvent env2 s2 ev2 now2).fatal = false ∧
    ∀ s, (HandleError s).fatal = false := by
  refine ⟨?_, ?_, fun _ => rfl⟩
  · simp [HandleEvent, hc, hpl, WatchPatterns, hg, watchFiles, Watch, hdq,
      watchLoop, hlq, hsq]
  · simp [HandleEvent, h2c, h2p, h2l, not_lt.mpr h2d]

/-- An environment whose event source refuses every new subscription,
with one glob pattern matching one new directory. -/
def cEnv8 : Env :=
  ⟨fun _ => true, fun q => q, fun q => q, fun _ => false,
    fun _ => some ["new.go"], fun _ => [], true, 5000000000, ["make"],
    "bash", ["*.go"], true⟩

/-- An environment whose command run fails. -/
def cEnv8b : Env :=
  ⟨fun _ => true, fun q => q, fun q => q, fun _ => true,
    fun _ => some [], fun _ => [], true, 5000000000, ["make"], "bash",
    [], false⟩

/-- C8 (counterexample): a subscription failure during runtime
re-registration — a create event re-resolving the patterns while the
dispatch loop is running — kills the process instead of being logged
and recovered. -/
theorem C8_counterexample :
    (HandleEvent cEnv8 ⟨[], []⟩ ⟨"new.go", true, false⟩ 0).fatal = true := by
  decide

/-- Closed instance of the amended fatality policy. -/
theorem C8_amended_subscription_failure_always_fatal_witness :
    (HandleEvent cEnv8 ⟨[], []⟩ ⟨"new.go", true, false⟩ 0).fatal = true ∧
    (HandleEvent cEnv8b ⟨[("a.txt", 0)], []⟩ ⟨"a.txt", false, false⟩
      6000000000).fatal = false ∧
    ∀ s, (HandleError s).fatal = false :=
  C8_amended_subscription_failure_always_fatal cEnv8 ⟨[], []⟩
    ⟨"new.go", true, false⟩ 0 "*.go" "new.go" rfl rfl rfl rfl (by decide)
    rfl cEnv8b ⟨[("a.txt", 0)], []⟩ ⟨"a.txt", false, false⟩ 6000000000 0
    "a.txt" rfl rfl (by decide) (by decide) rfl

/-- C9 (amended part): in the whenchange.go revision a delete event for
a tracked path cancels the underlying subscription (RemoveWatch) but
does not remove the bookkeeping entry: the path stays in the registry
map, and the handler does not die. -/
theorem C9_amended_delete_keeps_registry_entry
    (env : Env) (s : WatchState) (ev : FileEvent) (now w : Int) (p : String)
    (hc : ev.isCreate = false) (hdel : ev.isDelete = true)
    (hp : env.clean ev.name = p) (hl : lookupT s.list p = some w) :
    (lookupT (WG.HandleEvent env s ev now).state.list p).isSome = true ∧
    p ∉ (WG.HandleEvent env s ev now).state.subs ∧
    (WG.HandleEvent env s ev now).fatal = false := by
  have hfilter := not_mem_filter_ne s.subs p
  by_cases hlt : now - w < env.delay <;>
    simp [WG.HandleEvent, hc, hdel, hp, hl, hlt, lookupT_insertT_self,
      hfilter]

/-- Closed instance of the amended delete behavior. -/
theorem C9_amended_delete_keeps_registry_entry_witness :
    (lookupT (WG.HandleEvent wEnv ⟨[("a.txt", 0)], ["a.txt"]⟩
      ⟨"a.txt", false, true⟩ 1).state.list "a.txt").isSome = true ∧
    "a.txt" ∉ (WG.HandleEvent wEnv ⟨[("a.txt", 0)], ["a.txt"]⟩
      ⟨"a.txt", false, true⟩ 1).state.subs ∧
    (WG.HandleEvent wEnv ⟨[("a.txt", 0)], ["a.txt"]⟩
      ⟨"a.txt", false, true⟩ 1).fatal = false :=
  C9_amended_delete_keeps_registry_entry wEnv ⟨[("a.txt", 0)], ["a.txt"]⟩
    ⟨"a.txt", false, true⟩ 1 0 "a.txt" rfl rfl rfl (by decide)

/-- C9 (counterexample): after a delete event for the tracked path, the
registry entry is not removed — it is even refreshed to the event time,
and the delete itself runs the command. -/
theorem C9_counterexample :
    lookupT (WG.HandleEvent wEnv ⟨[("a.txt", 0)], ["a.txt"]⟩
      ⟨"a.txt", false, true⟩ 6000000000).state.list "a.txt" =
      some 6000000000 ∧
    fires (WG.HandleEvent wEnv ⟨[("a.txt", 0)], ["a.txt"]⟩
      ⟨"a.txt", false, true⟩ 6000000000) = true := by
  decide
